import Mathlib

/-!
Shallow embedding of `src/drain_lambda/drain.py` from
`ecs-cluster-update-lambda`: the lambda that drains running ECS tasks from
an EC2 instance about to be terminated by an Auto Scaling lifecycle hook.

Each AWS API call the Python code performs is recorded as an `Effect` in an
output trace; the responses the AWS collaborators would return are supplied
by an `Env` oracle.  Dictionary reads that can raise `KeyError`, and the one
modelled collaborator exception (`complete_lifecycle_action`), surface as
`Except.error`, mirroring Python exception propagation.
-/

/-- Parsed SNS payload: the dictionary `message` in `handler`
(`json.loads(event['Records'][0]['Sns']['Message'])`).  Every key the
handler may read is an `Option`; `none` models the key being absent from
the dictionary, in which case reading it raises `KeyError`. -/
structure Message where
  lifecycleTransition : Option String
  autoScalingGroupName : Option String
  ec2InstanceId : Option String
  lifecycleHookName : Option String
  clusterId : Option String
  containerInstanceArn : Option String
  iteration : Option Nat
deriving DecidableEq

/-- One AWS (or logging) side effect performed by the lambda, in order. -/
inductive Effect where
  | listClusters : Effect
  | listContainerInstances (cluster : String) : Effect
  | describeContainerInstances (cluster : String) (instances : List String) : Effect
  | updateContainerInstancesState (cluster : String) (containerInstance : String) : Effect
  | listTasks (cluster : String) (containerInstance : String) : Effect
  | describeTasks (cluster : String) (tasks : List String) : Effect
  | stopTask (cluster : String) (task : String) (reason : String) : Effect
  | completeLifecycleAction (group : String) (hook : String) (instanceId : String) : Effect
  | snsPublish (topic : String) (message : Message) (subject : String) : Effect
  | sleep (seconds : Nat) : Effect
  | logError (text : String) : Effect
  | printed (text : String) : Effect
deriving DecidableEq

/-- One entry of a `describe_container_instances` response. -/
structure ContainerInstance where
  ec2InstanceId : String
  containerInstanceArn : String
  status : String
deriving DecidableEq

/-- One entry of a `describe_tasks` response. -/
structure EcsTask where
  taskArn : String
  taskDefinitionArn : String
  startedBy : String
deriving DecidableEq

/-- Responses of the AWS collaborators: what `list_clusters` pagination,
`list_container_instances`/`describe_container_instances`, `list_tasks`,
`describe_tasks` return, and whether `complete_lifecycle_action` raises
(`asgError = some e` models the call raising exception `e`). -/
structure Env where
  clusterPages : List (List String)
  containerInstancesOf : String → List ContainerInstance
  listTasksResult : String → String → List String
  describeTasksResult : String → List String → List EcsTask
  asgError : Option String

/-- The triggering SNS event: `event['Records'][0]['Sns']` carries the
parsed `Message` and the `TopicArn`. -/
structure Event where
  message : Message
  topicArn : String

/-- MAXIMUM_ITERATIONS constant (drain.py line 7). -/
def MAXIMUM_ITERATIONS : Nat := 50

/-- PAUSE constant in seconds (drain.py line 9). -/
def PAUSE : Nat := 10

/-- Whether the second character list starts with the first one; used to
model Python substring search. -/
def beginsWith : List Char → List Char → Bool
  | [], _ => true
  | _ :: _, [] => false
  | a :: as, b :: bs => a == b && beginsWith as bs

/-- Helper for `pyFind`: index (from `i`) of the first occurrence of
`needle` in the remaining haystack, `-1` if none. -/
def pyFindAux (needle : List Char) : List Char → Nat → Int
  | [], i => if beginsWith needle [] then (i : Int) else -1
  | c :: t, i =>
    if beginsWith needle (c :: t) then (i : Int)
    else pyFindAux needle t (i + 1)

/-- Python `s.find(sub)`: lowest index where `sub` occurs in `s` as a
substring, `-1` when it does not occur (drain.py line 206 uses
`message['LifecycleTransition'].find('autoscaling:EC2_INSTANCE_TERMINATING')`). -/
def pyFind (s sub : String) : Int :=
  pyFindAux sub.data s.data 0

/-- Helper for `pySplitLast`: scan the characters keeping the component
read since the most recent slash; at the end that component is the last
one. -/
def pySplitLastAux (cur : List Char) : List Char → List Char
  | [] => cur
  | c :: rest =>
    if c == '/' then pySplitLastAux [] rest
    else pySplitLastAux (cur ++ [c]) rest

/-- Python `s.split('/')[-1]` (drain.py lines 40 and 251): the last
slash-separated component, i.e. everything after the last slash, or the
whole string when it contains none. -/
def pySplitLast (s : String) : String :=
  String.mk (pySplitLastAux [] s.data)

/-- Function `drain_instance` (drain.py lines 127-143): set the container
instance to DRAINING state via `update_container_instances_state`. -/
def drain_instance (cluster_arn container_instance_arn : String) : List Effect :=
  [Effect.updateContainerInstancesState cluster_arn container_instance_arn]

/-- Inner loop of `get_ecs_ids` (drain.py lines 114-121): scan the
described container instances of one cluster for the EC2 instance id;
on the first match, drain the instance unless it is already DRAINING
and return its ARN. -/
def find_in_instances (cluster_arn ec2_instance_id : String) :
    List ContainerInstance → List Effect × Option String
  | [] => ([], none)
  | inst :: rest =>
    if inst.ec2InstanceId == ec2_instance_id then
      ((if inst.status != "DRAINING" then
          drain_instance cluster_arn inst.containerInstanceArn
        else []),
       some inst.containerInstanceArn)
    else
      find_in_instances cluster_arn ec2_instance_id rest

/-- Outer loops of `get_ecs_ids` (drain.py lines 104-121): for each cluster,
list its container instances; when the list is non-empty, describe them and
scan for the EC2 instance id; stop at the first cluster with a match. -/
def find_in_clusters (env : Env) (ec2_instance_id : String) :
    List String → List Effect × Option (String × String)
  | [] => ([], none)
  | cluster_arn :: rest =>
    let arns := (env.containerInstancesOf cluster_arn).map
      (fun i => i.containerInstanceArn)
    if arns.isEmpty then
      let r := find_in_clusters env ec2_instance_id rest
      (Effect.listContainerInstances cluster_arn :: r.1, r.2)
    else
      let s := find_in_instances cluster_arn ec2_instance_id
        (env.containerInstancesOf cluster_arn)
      match s.2 with
      | some arn =>
        (Effect.listContainerInstances cluster_arn ::
          Effect.describeContainerInstances cluster_arn arns :: s.1,
         some (cluster_arn, arn))
      | none =>
        let r := find_in_clusters env ec2_instance_id rest
        (Effect.listContainerInstances cluster_arn ::
          Effect.describeContainerInstances cluster_arn arns :: (s.1 ++ r.1),
         r.2)

/-- Function `get_ecs_ids` (drain.py lines 86-124): find the ECS cluster ARN
and container instance ARN for an EC2 instance id by paging through
`list_clusters` and scanning every cluster; returns `none` (Python
`[None, None]`) when the instance is in no cluster. -/
def get_ecs_ids (env : Env) (ec2_instance_id : String) :
    List Effect × Option (String × String) :=
  let r := find_in_clusters env ec2_instance_id env.clusterPages.flatten
  (Effect.listClusters :: r.1, r.2)

/-- Function `list_running_tasks` (drain.py lines 63-83): `list_tasks` with
`desiredStatus='RUNNING'`, returning the task ARNs. -/
def list_running_tasks (env : Env) (cluster_arn container_instance_arn : String) :
    List Effect × List String :=
  ([Effect.listTasks cluster_arn container_instance_arn],
   env.listTasksResult cluster_arn container_instance_arn)

/-- Loop of `stop_daemon_tasks` (drain.py lines 49-58): for each described
task, stop it with the fixed reason when its `startedBy` equals the short
container instance ARN. -/
def stop_tasks_loop (cluster_arn short_arn : String) : List EcsTask → List Effect
  | [] => []
  | task :: rest =>
    if task.startedBy == short_arn then
      Effect.stopTask cluster_arn task.taskArn "Draining the container instance" ::
        stop_tasks_loop cluster_arn short_arn rest
    else
      stop_tasks_loop cluster_arn short_arn rest

/-- Function `stop_daemon_tasks` (drain.py lines 22-60): describe the given
tasks, then stop every task whose `startedBy` equals the short container
instance ARN (`container_instance_arn.split('/')[-1]`). -/
def stop_daemon_tasks (env : Env) (cluster_arn container_instance_arn : String)
    (task_arns : List String) : List Effect :=
  let short_arn := pySplitLast container_instance_arn
  Effect.describeTasks cluster_arn task_arns ::
    stop_tasks_loop cluster_arn short_arn
      (env.describeTasksResult cluster_arn task_arns)

/-- Function `continue_lifecycle` (drain.py lines 146-166): call
`complete_lifecycle_action` with result CONTINUE inside a `try`; any
exception is caught and printed, so both branches return `Except.ok`.
The `Except` codomain records that an uncaught exception would have
propagated as `Except.error`. -/
def continue_lifecycle (env : Env)
    (asg_group_name ec2_instance_id lifecycle_hook_name : String) :
    Except String (List Effect) :=
  match env.asgError with
  | none =>
    Except.ok [Effect.completeLifecycleAction asg_group_name
      lifecycle_hook_name ec2_instance_id]
  | some e =>
    Except.ok [Effect.completeLifecycleAction asg_group_name
      lifecycle_hook_name ec2_instance_id, Effect.printed e]

/-- Function `publish_to_sns` (drain.py lines 169-183): publish the updated
message and subject to the SNS topic. -/
def publish_to_sns (message : Message) (subject topic_arn : String) : List Effect :=
  [Effect.snsPublish topic_arn message subject]

/-- Lines 233-259 of `handler`: list the running tasks; when some remain,
stop the daemon tasks, increment the iteration, bail out past the circuit
breaker, otherwise sleep and republish the updated message; when none
remain, complete the lifecycle hook.  `pre` carries the effects already
performed earlier in the invocation. -/
def drain_pass (env : Env) (message : Message)
    (topic_arn asg_group_name ec2_instance_id lifecycle_hook_name
     cluster_arn container_instance_arn : String)
    (iteration : Nat) (pre : List Effect) : Except String (List Effect) :=
  let lr := list_running_tasks env cluster_arn container_instance_arn
  let task_arns := lr.2
  let pre2 := pre ++ lr.1
  if task_arns.length > 0 then
    let stopE := stop_daemon_tasks env cluster_arn container_instance_arn task_arns
    let it2 := iteration + 1
    if it2 > MAXIMUM_ITERATIONS then
      Except.ok (pre2 ++ stopE ++
        [Effect.logError "Exceeded the maximum number of iterations, bailing out"])
    else
      let newMessage := { message with
        containerInstanceArn := some container_instance_arn,
        clusterId := some cluster_arn,
        iteration := some it2 }
      let subject := "Draining instance " ++ pySplitLast container_instance_arn
      Except.ok (pre2 ++ stopE ++ Effect.sleep PAUSE ::
        publish_to_sns newMessage subject topic_arn)
  else
    match continue_lifecycle env asg_group_name ec2_instance_id
      lifecycle_hook_name with
    | Except.ok t => Except.ok (pre2 ++ t)
    | Except.error e => Except.error e

/-- Function `handler` (drain.py lines 186-259): parse and route the SNS
message, resolve the cluster and container instance identity (from the
message when cached, otherwise via `get_ecs_ids`), then run the drain pass.
Absent dictionary keys raise `KeyError` (`Except.error`). -/
def handler (env : Env) (event : Event) : Except String (List Effect) :=
  let message := event.message
  match message.lifecycleTransition with
  | none => Except.ok []
  | some lt =>
    if pyFind lt "autoscaling:EC2_INSTANCE_TERMINATING" > -1 then
      match message.autoScalingGroupName with
      | none => Except.error "KeyError: AutoScalingGroupName"
      | some asg_group_name =>
        match message.ec2InstanceId with
        | none => Except.error "KeyError: EC2InstanceId"
        | some ec2_instance_id =>
          match message.lifecycleHookName with
          | none => Except.error "KeyError: LifecycleHookName"
          | some lifecycle_hook_name =>
            let topic_arn := event.topicArn
            match message.containerInstanceArn with
            | some container_instance_arn =>
              match message.clusterId with
              | none => Except.error "KeyError: ClusterId"
              | some cluster_arn =>
                match message.iteration with
                | none => Except.error "KeyError: Iteration"
                | some iteration =>
                  drain_pass env message topic_arn asg_group_name
                    ec2_instance_id lifecycle_hook_name cluster_arn
                    container_instance_arn iteration []
            | none =>
              let r := get_ecs_ids env ec2_instance_id
              match r.2 with
              | none => Except.ok r.1
              | some ci =>
                drain_pass env message topic_arn asg_group_name
                  ec2_instance_id lifecycle_hook_name ci.1 ci.2 0 r.1
    else
      Except.ok []

/-- Whether an effect is an SNS publish. -/
def isPublishEffect : Effect → Bool
  | Effect.snsPublish _ _ _ => true
  | _ => false

/-- Whether an effect is a `complete_lifecycle_action` call. -/
def isContinueEffect : Effect → Bool
  | Effect.completeLifecycleAction _ _ _ => true
  | _ => false

/-- Whether an effect is a `stop_task` call. -/
def isStopEffect : Effect → Bool
  | Effect.stopTask _ _ _ => true
  | _ => false

/-- Whether an effect is a `list_tasks` call. -/
def isListTasksEffect : Effect → Bool
  | Effect.listTasks _ _ => true
  | _ => false

/-- Whether an effect is part of the cluster-wide identity search:
`list_clusters`, `list_container_instances` or
`describe_container_instances`. -/
def isSearchEffect : Effect → Bool
  | Effect.listClusters => true
  | Effect.listContainerInstances _ => true
  | Effect.describeContainerInstances _ _ => true
  | _ => false

/-- Whether an effect is an `update_container_instances_state` call
(the transition to DRAINING). -/
def isUpdateEffect : Effect → Bool
  | Effect.updateContainerInstancesState _ _ => true
  | _ => false

/-- Number of SNS publishes in a trace. -/
def countPublish (t : List Effect) : Nat := t.countP isPublishEffect

/-- Number of `complete_lifecycle_action` calls in a trace. -/
def countContinue (t : List Effect) : Nat := t.countP isContinueEffect

/-- Number of `stop_task` calls in a trace. -/
def countStop (t : List Effect) : Nat := t.countP isStopEffect

/-- Number of `list_tasks` calls in a trace. -/
def countListTasks (t : List Effect) : Nat := t.countP isListTasksEffect

/-- Number of identity-search calls in a trace. -/
def countSearch (t : List Effect) : Nat := t.countP isSearchEffect

/-- Number of DRAINING transitions in a trace. -/
def countUpdate (t : List Effect) : Nat := t.countP isUpdateEffect

/-- The messages republished to SNS during a trace, in order. -/
def publishedMessages (t : List Effect) : List Message :=
  t.filterMap (fun e => match e with
    | Effect.snsPublish _ m _ => some m
    | _ => none)

/-- Concrete message with cached identity (ContainerInstanceArn, ClusterId
and Iteration present), used to evaluate the theorems on explicit input. -/
def msgCached : Message :=
  { lifecycleTransition := some "autoscaling:EC2_INSTANCE_TERMINATING",
    autoScalingGroupName := some "asg1",
    ec2InstanceId := some "i-1",
    lifecycleHookName := some "hook1",
    clusterId := some "cluA",
    containerInstanceArn := some "arn/ci1",
    iteration := some 0 }

/-- Event wrapping `msgCached`. -/
def eventCached : Event := { message := msgCached, topicArn := "topicA" }

/-- Cached message at iteration 50, about to trip the circuit breaker. -/
def msgBreaker : Message := { msgCached with iteration := some 50 }

/-- Event wrapping `msgBreaker`. -/
def eventBreaker : Event := { message := msgBreaker, topicArn := "topicA" }

/-- First-invocation message: no cached identity fields. -/
def msgNoId : Message :=
  { msgCached with containerInstanceArn := none, clusterId := none, iteration := none }

/-- Event wrapping `msgNoId`. -/
def eventNoId : Event := { message := msgNoId, topicArn := "topicA" }

/-- Message whose LifecycleTransition is not a termination transition. -/
def msgAlarm : Message :=
  { msgCached with lifecycleTransition := some "ALARM: test" }

/-- Event wrapping `msgAlarm`. -/
def eventAlarm : Event := { message := msgAlarm, topicArn := "topicA" }

/-- Cached message whose LifecycleTransition embeds the termination marker
between an arbitrary prefix and suffix. -/
def msgPrefixed : Message :=
  { msgCached with lifecycleTransition := some ("xx" ++ "autoscaling:EC2_INSTANCE_TERMINATING" ++ "yy") }

/-- Event wrapping `msgPrefixed`. -/
def eventPrefixed : Event := { message := msgPrefixed, topicArn := "topicA" }

/-- Environment with no clusters and no tasks anywhere. -/
def envNoTasks : Env :=
  { clusterPages := [],
    containerInstancesOf := fun _ => [],
    listTasksResult := fun _ _ => [],
    describeTasksResult := fun _ _ => [],
    asgError := none }

/-- Environment where the instance runs two tasks, one started by the
short container-instance identifier "ci1" and one by a service. -/
def envTwoTasks : Env :=
  { envNoTasks with
    listTasksResult := fun _ _ => ["t1", "t2"],
    describeTasksResult := fun _ _ =>
      [{ taskArn := "t1", taskDefinitionArn := "td1", startedBy := "ci1" },
       { taskArn := "t2", taskDefinitionArn := "td2", startedBy := "svc" }] }

/-- Environment like `envTwoTasks` whose single cluster holds the container
instance for "i-1" in ACTIVE (not DRAINING) state. -/
def envOneActive : Env :=
  { envTwoTasks with
    clusterPages := [["cluA"]],
    containerInstancesOf := fun _ =>
      [{ ec2InstanceId := "i-1", containerInstanceArn := "arn/ci1", status := "ACTIVE" }] }

/-- The message republished by a pass over `msgCached`. -/
def msgPub : Message := { msgCached with iteration := some 1 }

/-- The trace of `handler envTwoTasks eventCached`. -/
def tracePub : List Effect :=
  [Effect.listTasks "cluA" "arn/ci1",
   Effect.describeTasks "cluA" ["t1", "t2"],
   Effect.stopTask "cluA" "t1" "Draining the container instance",
   Effect.sleep 10,
   Effect.snsPublish "topicA" msgPub "Draining instance ci1"]


theorem beginsWith_self_append (l y : List Char) : beginsWith l (l ++ y) = true := by
  induction l with
  | nil => rfl
  | cons a as ih => simp [beginsWith, ih]

theorem pyFindAux_eq_of_begins (needle : List Char) :
    ∀ (hay : List Char) (i : Nat), beginsWith needle hay = true →
      pyFindAux needle hay i = (i : Int) := by
  intro hay i h
  cases hay with
  | nil => simp [pyFindAux, h]
  | cons c t => simp [pyFindAux, h]

theorem pyFindAux_pos_of_contains (needle hay2 : List Char)
    (h : beginsWith needle hay2 = true) :
    ∀ (x : List Char) (i : Nat), -1 < pyFindAux needle (x ++ hay2) i := by
  intro x
  induction x with
  | nil =>
    intro i
    rw [List.nil_append, pyFindAux_eq_of_begins needle hay2 i h]
    omega
  | cons c xs ih =>
    intro i
    rw [List.cons_append]
    by_cases hb : beginsWith needle (c :: (xs ++ hay2)) = true
    · rw [pyFindAux_eq_of_begins needle _ i hb]
      omega
    · simp only [pyFindAux, hb, if_false]
      exact ih (i + 1)

theorem pyFind_substring_pos (p m s : String) : pyFind (p ++ m ++ s) m > -1 := by
  show -1 < pyFindAux m.data (p ++ m ++ s).data 0
  have hd : (p ++ m ++ s).data = p.data ++ (m.data ++ s.data) := by
    simp [String.data_append]
  rw [hd]
  exact pyFindAux_pos_of_contains m.data (m.data ++ s.data)
    (beginsWith_self_append m.data s.data) p.data 0

theorem find_in_instances_shape (c x : String) :
    ∀ (l : List ContainerInstance) (e : Effect),
      e ∈ (find_in_instances c x l).1 →
      ∃ a, e = Effect.updateContainerInstancesState c a := by
  intro l
  induction l with
  | nil =>
    intro e h
    simp [find_in_instances] at h
  | cons i rest ih =>
    intro e h
    by_cases hm : (i.ec2InstanceId == x) = true
    · simp only [find_in_instances, hm, if_true] at h
      by_cases hs : (i.status != "DRAINING") = true
      · simp only [hs, if_true, drain_instance, List.mem_singleton] at h
        exact ⟨i.containerInstanceArn, h⟩
      · simp [hs] at h
    · simp only [find_in_instances, hm, if_false] at h
      exact ih e h

theorem find_in_clusters_shape (env : Env) (x : String) :
    ∀ (cs : List String) (e : Effect),
      e ∈ (find_in_clusters env x cs).1 →
      isSearchEffect e = true ∨ isUpdateEffect e = true := by
  intro cs
  induction cs with
  | nil =>
    intro e h
    simp [find_in_clusters] at h
  | cons c rest ih =>
    intro e h
    by_cases he : ((env.containerInstancesOf c).map
        (fun i => i.containerInstanceArn)).isEmpty = true
    · simp [find_in_clusters, he] at h
      rcases h with h | h
      · subst h; left; rfl
      · exact ih e h
    · rcases hs : (find_in_instances c x (env.containerInstancesOf c)).2 with _ | arn
      · simp [find_in_clusters, he, hs] at h
        rcases h with h | h | h | h
        · subst h; left; rfl
        · subst h; left; rfl
        · rcases find_in_instances_shape c x _ e h with ⟨a, ha⟩
          subst ha; right; rfl
        · exact ih e h
      · simp [find_in_clusters, he, hs] at h
        rcases h with h | h | h
        · subst h; left; rfl
        · subst h; left; rfl
        · rcases find_in_instances_shape c x _ e h with ⟨a, ha⟩
          subst ha; right; rfl

theorem get_ecs_ids_shape (env : Env) (x : String) (e : Effect)
    (h : e ∈ (get_ecs_ids env x).1) :
    isSearchEffect e = true ∨ isUpdateEffect e = true := by
  simp only [get_ecs_ids, List.mem_cons] at h
  rcases h with h | h
  · subst h; left; rfl
  · exact find_in_clusters_shape env x _ e h

theorem countP_zero_of_all_false {p : Effect → Bool} {t : List Effect}
    (h : ∀ e ∈ t, p e = false) : t.countP p = 0 := by
  apply List.countP_eq_zero.mpr
  intro a ha
  simp [h a ha]

theorem get_ecs_ids_counts (env : Env) (x : String) :
    countContinue (get_ecs_ids env x).1 = 0 ∧
    countPublish (get_ecs_ids env x).1 = 0 ∧
    countStop (get_ecs_ids env x).1 = 0 ∧
    countListTasks (get_ecs_ids env x).1 = 0 ∧
    publishedMessages (get_ecs_ids env x).1 = [] := by
  refine ⟨countP_zero_of_all_false ?_, countP_zero_of_all_false ?_,
    countP_zero_of_all_false ?_, countP_zero_of_all_false ?_,
    List.filterMap_eq_nil_iff.mpr ?_⟩ <;>
  · intro e he
    rcases get_ecs_ids_shape env x e he with h | h <;>
      cases e <;>
      simp_all [isSearchEffect, isUpdateEffect, isContinueEffect,
        isPublishEffect, isStopEffect, isListTasksEffect]

theorem stop_tasks_loop_eq (c s : String) :
    ∀ l : List EcsTask,
      stop_tasks_loop c s l =
        (l.filter (fun u => u.startedBy == s)).map
          (fun u => Effect.stopTask c u.taskArn "Draining the container instance") := by
  intro l
  induction l with
  | nil => rfl
  | cons t rest ih =>
    by_cases h : (t.startedBy == s) = true
    · simp [stop_tasks_loop, List.filter_cons, h, ih]
    · simp [stop_tasks_loop, List.filter_cons, h, ih]

theorem stop_tasks_loop_shape (c s : String) (l : List EcsTask) (e : Effect)
    (h : e ∈ stop_tasks_loop c s l) :
    ∃ a, e = Effect.stopTask c a "Draining the container instance" := by
  rw [stop_tasks_loop_eq] at h
  simp only [List.mem_map, List.mem_filter] at h
  rcases h with ⟨u, _, hu⟩
  exact ⟨u.taskArn, hu.symm⟩

theorem stop_daemon_tasks_shape (env : Env) (c a : String) (ts : List String)
    (e : Effect) (h : e ∈ stop_daemon_tasks env c a ts) :
    (∃ l, e = Effect.describeTasks c l) ∨
    (∃ t, e = Effect.stopTask c t "Draining the container instance") := by
  simp only [stop_daemon_tasks, List.mem_cons] at h
  rcases h with h | h
  · exact Or.inl ⟨ts, h⟩
  · exact Or.inr (stop_tasks_loop_shape _ _ _ e h)

theorem stop_daemon_tasks_counts (env : Env) (c a : String) (ts : List String) :
    countContinue (stop_daemon_tasks env c a ts) = 0 ∧
    countPublish (stop_daemon_tasks env c a ts) = 0 ∧
    countSearch (stop_daemon_tasks env c a ts) = 0 ∧
    countListTasks (stop_daemon_tasks env c a ts) = 0 ∧
    countUpdate (stop_daemon_tasks env c a ts) = 0 ∧
    publishedMessages (stop_daemon_tasks env c a ts) = [] := by
  refine ⟨countP_zero_of_all_false ?_, countP_zero_of_all_false ?_,
    countP_zero_of_all_false ?_, countP_zero_of_all_false ?_,
    countP_zero_of_all_false ?_, List.filterMap_eq_nil_iff.mpr ?_⟩ <;>
  · intro e he
    rcases stop_daemon_tasks_shape env c a ts e he with ⟨l, h⟩ | ⟨t, h⟩ <;>
      subst h <;>
      simp [isSearchEffect, isUpdateEffect, isContinueEffect,
        isPublishEffect, isStopEffect, isListTasksEffect]

theorem stop_daemon_tasks_filter_stop (env : Env) (c a : String) (ts : List String) :
    (stop_daemon_tasks env c a ts).filter isStopEffect =
      stop_tasks_loop c (pySplitLast a) (env.describeTasksResult c ts) := by
  have hall : ∀ e ∈ stop_tasks_loop c (pySplitLast a)
      (env.describeTasksResult c ts), isStopEffect e = true := by
    intro e he
    rcases stop_tasks_loop_shape _ _ _ e he with ⟨t, h⟩
    subst h; rfl
  simp only [stop_daemon_tasks, List.filter_cons]
  rw [if_neg (by simp [isStopEffect])]
  exact List.filter_eq_self.mpr hall

/-- C5: for every inbound message that either lacks the LifecycleTransition
field or whose LifecycleTransition does not contain the termination marker,
the handler returns `Except.ok []`: no orchestrator, autoscaling or
notification API call and no republished message. -/
theorem non_termination_event_ignored (env : Env) (event : Event)
    (h : event.message.lifecycleTransition = none ∨
      ∃ lt, event.message.lifecycleTransition = some lt ∧
        ¬ pyFind lt "autoscaling:EC2_INSTANCE_TERMINATING" > -1) :
    handler env event = Except.ok [] := by
  rcases h with h | ⟨lt, hlt, hfind⟩
  · simp [handler, h]
  · simp [handler, hlt, hfind]

/-- C7: `continue_lifecycle` returns normally for every input and every
behaviour of the autoscaling collaborator (`env.asgError` arbitrary): the
exception raised by `complete_lifecycle_action` is caught and only logged,
never propagated as `Except.error`. -/
theorem continue_lifecycle_never_throws (env : Env)
    (asg_group_name ec2_instance_id lifecycle_hook_name : String) :
    ∃ t, continue_lifecycle env asg_group_name ec2_instance_id
      lifecycle_hook_name = Except.ok t := by
  cases h : env.asgError <;> simp [continue_lifecycle, h]

/-- C1: whenever the drain controller runs (termination transition present,
identity either cached in the message or resolved by the cluster search) and
the task enumeration returns the empty list, the lifecycle-continue signal
for the given group, hook and instance id is sent exactly once and nothing
is republished to the notification topic. -/
theorem empty_tasks_continue_once (env : Env) (event : Event)
    (lt asg ec2 hook c a : String)
    (hLT : event.message.lifecycleTransition = some lt)
    (hFind : pyFind lt "autoscaling:EC2_INSTANCE_TERMINATING" > -1)
    (hASG : event.message.autoScalingGroupName = some asg)
    (hEC2 : event.message.ec2InstanceId = some ec2)
    (hHook : event.message.lifecycleHookName = some hook)
    (hId : (event.message.containerInstanceArn = some a ∧
            event.message.clusterId = some c ∧
            ∃ i, event.message.iteration = some i) ∨
           (event.message.containerInstanceArn = none ∧
            (get_ecs_ids env ec2).2 = some (c, a)))
    (hTasks : env.listTasksResult c a = []) :
    ∃ t, handler env event = Except.ok t ∧
      countContinue t = 1 ∧
      Effect.completeLifecycleAction asg hook ec2 ∈ t ∧
      countPublish t = 0 := by
  obtain ⟨g1, g2, g3, g4, g5⟩ := get_ecs_ids_counts env ec2
  rcases hId with ⟨hArn, hClu, i, hIt⟩ | ⟨hArn, hRes⟩
  · cases hE : env.asgError with
    | none =>
      refine ⟨[Effect.listTasks c a, Effect.completeLifecycleAction asg hook ec2],
        ?_, ?_, ?_, ?_⟩
      · simp [handler, hLT, hFind, hASG, hEC2, hHook, hArn, hClu, hIt,
          drain_pass, list_running_tasks, hTasks, continue_lifecycle, hE]
      · simp [countContinue, List.countP_cons, isContinueEffect]
      · simp
      · simp [countPublish, List.countP_cons, isPublishEffect]
    | some err =>
      refine ⟨[Effect.listTasks c a, Effect.completeLifecycleAction asg hook ec2,
        Effect.printed err], ?_, ?_, ?_, ?_⟩
      · simp [handler, hLT, hFind, hASG, hEC2, hHook, hArn, hClu, hIt,
          drain_pass, list_running_tasks, hTasks, continue_lifecycle, hE]
      · simp [countContinue, List.countP_cons, isContinueEffect]
      · simp
      · simp [countPublish, List.countP_cons, isPublishEffect]
  · cases hE : env.asgError with
    | none =>
      refine ⟨(get_ecs_ids env ec2).1 ++
        [Effect.listTasks c a, Effect.completeLifecycleAction asg hook ec2],
        ?_, ?_, ?_, ?_⟩
      · simp [handler, hLT, hFind, hASG, hEC2, hHook, hArn, hRes,
          drain_pass, list_running_tasks, hTasks, continue_lifecycle, hE]
      · simp only [countContinue, List.countP_append] at g1 ⊢
        simp [g1, List.countP_cons, isContinueEffect]
      · simp
      · simp only [countPublish, List.countP_append] at g2 ⊢
        simp [g2, List.countP_cons, isPublishEffect]
    | some err =>
      refine ⟨(get_ecs_ids env ec2).1 ++
        [Effect.listTasks c a, Effect.completeLifecycleAction asg hook ec2,
         Effect.printed err], ?_, ?_, ?_, ?_⟩
      · simp [handler, hLT, hFind, hASG, hEC2, hHook, hArn, hRes,
          drain_pass, list_running_tasks, hTasks, continue_lifecycle, hE]
      · simp only [countContinue, List.countP_append] at g1 ⊢
        simp [g1, List.countP_cons, isContinueEffect]
      · simp
      · simp only [countPublish, List.countP_append] at g2 ⊢
        simp [g2, List.countP_cons, isPublishEffect]

theorem drain_pass_runs (env : Env) (message : Message)
    (topic asg ec2 hook c a : String) (it : Nat) (pre : List Effect) :
    ∃ t, drain_pass env message topic asg ec2 hook c a it pre = Except.ok t ∧
      Effect.listTasks c a ∈ t ∧ ∀ e ∈ pre, e ∈ t := by
  by_cases hlen : (env.listTasksResult c a).length > 0
  · by_cases hbig : it + 1 > MAXIMUM_ITERATIONS
    · have h : drain_pass env message topic asg ec2 hook c a it pre =
          Except.ok (pre ++ Effect.listTasks c a ::
            (stop_daemon_tasks env c a (env.listTasksResult c a) ++
             [Effect.logError
               "Exceeded the maximum number of iterations, bailing out"])) := by
        simp [drain_pass, list_running_tasks, hlen, hbig]
      exact ⟨_, h, by simp, fun e he => by simp [he]⟩
    · have h : drain_pass env message topic asg ec2 hook c a it pre =
          Except.ok (pre ++ Effect.listTasks c a ::
            (stop_daemon_tasks env c a (env.listTasksResult c a) ++
             Effect.sleep PAUSE ::
             publish_to_sns { message with containerInstanceArn := some a, clusterId := some c, iteration := some (it + 1) } ("Draining instance " ++ pySplitLast a) topic)) := by
        simp [drain_pass, list_running_tasks, hlen, hbig]
      exact ⟨_, h, by simp, fun e he => by simp [he]⟩
  · cases hE : env.asgError with
    | none =>
      have h : drain_pass env message topic asg ec2 hook c a it pre =
          Except.ok (pre ++ [Effect.listTasks c a,
            Effect.completeLifecycleAction asg hook ec2]) := by
        simp [drain_pass, list_running_tasks, hlen, continue_lifecycle, hE]
      exact ⟨_, h, by simp, fun e he => by simp [he]⟩
    | some err =>
      have h : drain_pass env message topic asg ec2 hook c a it pre =
          Except.ok (pre ++ [Effect.listTasks c a,
            Effect.completeLifecycleAction asg hook ec2,
            Effect.printed err]) := by
        simp [drain_pass, list_running_tasks, hlen, continue_lifecycle, hE]
      exact ⟨_, h, by simp, fun e he => by simp [he]⟩

theorem drain_pass_published (env : Env) (message : Message)
    (topic asg ec2 hook c a : String) (it : Nat) (pre : List Effect)
    (hpre : publishedMessages pre = []) (t : List Effect)
    (hRun : drain_pass env message topic asg ec2 hook c a it pre = Except.ok t)
    (m2 : Message) (hMem : m2 ∈ publishedMessages t) :
    m2 = { message with containerInstanceArn := some a, clusterId := some c, iteration := some (it + 1) } := by
  obtain ⟨s1, s2, s3, s4, s5, s6⟩ :=
    stop_daemon_tasks_counts env c a (env.listTasksResult c a)
  simp only [publishedMessages] at hpre s6
  by_cases hlen : (env.listTasksResult c a).length > 0
  · by_cases hbig : it + 1 > MAXIMUM_ITERATIONS
    · simp [drain_pass, list_running_tasks, hlen, hbig] at hRun
      subst hRun
      simp [publishedMessages, List.filterMap_append, List.filterMap_cons,
        hpre, s6] at hMem
    · simp [drain_pass, list_running_tasks, hlen, hbig] at hRun
      subst hRun
      simp [publishedMessages, List.filterMap_append, List.filterMap_cons,
        publish_to_sns, hpre, s6] at hMem
      exact hMem
  · cases hE : env.asgError with
    | none =>
      simp [drain_pass, list_running_tasks, hlen, continue_lifecycle, hE] at hRun
      subst hRun
      simp [publishedMessages, List.filterMap_append, List.filterMap_cons,
        hpre] at hMem
    | some err =>
      simp [drain_pass, list_running_tasks, hlen, continue_lifecycle, hE] at hRun
      subst hRun
      simp [publishedMessages, List.filterMap_append, List.filterMap_cons,
        hpre] at hMem

/-- C3: on an invocation with cached identity whose task list is non-empty
and whose incremented Iteration exceeds MAXIMUM_ITERATIONS (50), the
invocation ends with the error-level log as its last effect, publishes
nothing to the notification topic, and sends no lifecycle-continue
signal.  (An invocation without a cached ContainerInstanceArn restarts at
iteration 0 and can never trip the breaker.) -/
theorem circuit_breaker_halts (env : Env) (event : Event)
    (lt asg ec2 hook c a : String) (i : Nat)
    (hLT : event.message.lifecycleTransition = some lt)
    (hFind : pyFind lt "autoscaling:EC2_INSTANCE_TERMINATING" > -1)
    (hASG : event.message.autoScalingGroupName = some asg)
    (hEC2 : event.message.ec2InstanceId = some ec2)
    (hHook : event.message.lifecycleHookName = some hook)
    (hArn : event.message.containerInstanceArn = some a)
    (hClu : event.message.clusterId = some c)
    (hIt : event.message.iteration = some i)
    (hBig : i + 1 > MAXIMUM_ITERATIONS)
    (hTasks : env.listTasksResult c a ≠ []) :
    ∃ t, handler env event = Except.ok t ∧
      t.getLast? = some (Effect.logError
        "Exceeded the maximum number of iterations, bailing out") ∧
      countPublish t = 0 ∧ countContinue t = 0 := by
  obtain ⟨s1, s2, s3, s4, s5, s6⟩ :=
    stop_daemon_tasks_counts env c a (env.listTasksResult c a)
  have hlen : (env.listTasksResult c a).length > 0 :=
    List.length_pos.mpr hTasks
  refine ⟨(Effect.listTasks c a ::
      stop_daemon_tasks env c a (env.listTasksResult c a)) ++
      [Effect.logError "Exceeded the maximum number of iterations, bailing out"],
    ?_, ?_, ?_, ?_⟩
  · simp [handler, hLT, hFind, hASG, hEC2, hHook, hArn, hClu, hIt,
      drain_pass, list_running_tasks, hlen, hBig]
  · exact List.getLast?_concat _
  · simp only [countPublish, List.countP_append, List.countP_cons] at s2 ⊢
    simp [s2, isPublishEffect]
  · simp only [countContinue, List.countP_append, List.countP_cons] at s1 ⊢
    simp [s1, isContinueEffect]

/-- C6: when the message carries no ContainerInstanceArn and the cluster
search exhausts all clusters without a match, the invocation returns
normally (`Except.ok`, carrying only the search effects), and lists no
tasks, stops no task, republishes nothing and sends no lifecycle-continue
signal. -/
theorem unknown_instance_silent_return (env : Env) (event : Event)
    (lt asg ec2 hook : String)
    (hLT : event.message.lifecycleTransition = some lt)
    (hFind : pyFind lt "autoscaling:EC2_INSTANCE_TERMINATING" > -1)
    (hASG : event.message.autoScalingGroupName = some asg)
    (hEC2 : event.message.ec2InstanceId = some ec2)
    (hHook : event.message.lifecycleHookName = some hook)
    (hArn : event.message.containerInstanceArn = none)
    (hRes : (get_ecs_ids env ec2).2 = none) :
    handler env event = Except.ok (get_ecs_ids env ec2).1 ∧
    countListTasks (get_ecs_ids env ec2).1 = 0 ∧
    countStop (get_ecs_ids env ec2).1 = 0 ∧
    countPublish (get_ecs_ids env ec2).1 = 0 ∧
    countContinue (get_ecs_ids env ec2).1 = 0 := by
  obtain ⟨g1, g2, g3, g4, g5⟩ := get_ecs_ids_counts env ec2
  refine ⟨?_, g4, g3, g2, g1⟩
  simp [handler, hLT, hFind, hASG, hEC2, hHook, hArn, hRes]

/-- C10: the router's termination check is substring containment, not
equality: a message whose LifecycleTransition contains the string
"autoscaling:EC2_INSTANCE_TERMINATING" with an arbitrary prefix and
suffix is dispatched to the drain controller (the invocation runs and
lists the running tasks) rather than ignored. -/
theorem substring_transition_dispatched (env : Env) (event : Event)
    (p s asg ec2 hook c a : String) (i : Nat)
    (hLT : event.message.lifecycleTransition =
      some (p ++ "autoscaling:EC2_INSTANCE_TERMINATING" ++ s))
    (hASG : event.message.autoScalingGroupName = some asg)
    (hEC2 : event.message.ec2InstanceId = some ec2)
    (hHook : event.message.lifecycleHookName = some hook)
    (hArn : event.message.containerInstanceArn = some a)
    (hClu : event.message.clusterId = some c)
    (hIt : event.message.iteration = some i) :
    ∃ t, handler env event = Except.ok t ∧ Effect.listTasks c a ∈ t := by
  have hFind := pyFind_substring_pos p "autoscaling:EC2_INSTANCE_TERMINATING" s
  obtain ⟨t, ht, hmem, hpre⟩ := drain_pass_runs env event.message event.topicArn
    asg ec2 hook c a i []
  refine ⟨t, ?_, hmem⟩
  rw [show handler env event = drain_pass env event.message event.topicArn
    asg ec2 hook c a i [] from ?_]
  · exact ht
  · simp [handler, hLT, hFind, hASG, hEC2, hHook, hArn, hClu, hIt]

/-- C2: on a pass with cached identity whose captured task list is
non-empty, the stop-task calls of the invocation are exactly one per
described task whose StartedBy equals the short container-instance
identifier (the last component of the ARN split on the slash), in order,
and no stop-task call is made for any other task. -/
theorem stop_daemon_matching_only (env : Env) (event : Event)
    (lt asg ec2 hook c a : String) (i : Nat)
    (hLT : event.message.lifecycleTransition = some lt)
    (hFind : pyFind lt "autoscaling:EC2_INSTANCE_TERMINATING" > -1)
    (hASG : event.message.autoScalingGroupName = some asg)
    (hEC2 : event.message.ec2InstanceId = some ec2)
    (hHook : event.message.lifecycleHookName = some hook)
    (hArn : event.message.containerInstanceArn = some a)
    (hClu : event.message.clusterId = some c)
    (hIt : event.message.iteration = some i)
    (hNe : env.listTasksResult c a ≠ []) :
    ∃ t, handler env event = Except.ok t ∧
      t.filter isStopEffect =
        ((env.describeTasksResult c (env.listTasksResult c a)).filter
          (fun u => u.startedBy == pySplitLast a)).map
          (fun u => Effect.stopTask c u.taskArn
            "Draining the container instance") := by
  have hlen : (env.listTasksResult c a).length > 0 := List.length_pos.mpr hNe
  have hfil : (stop_daemon_tasks env c a (env.listTasksResult c a)).filter
      isStopEffect =
      ((env.describeTasksResult c (env.listTasksResult c a)).filter
        (fun u => u.startedBy == pySplitLast a)).map
        (fun u => Effect.stopTask c u.taskArn
          "Draining the container instance") := by
    rw [stop_daemon_tasks_filter_stop, stop_tasks_loop_eq]
  by_cases hbig : i + 1 > MAXIMUM_ITERATIONS
  · refine ⟨(Effect.listTasks c a ::
      stop_daemon_tasks env c a (env.listTasksResult c a)) ++
      [Effect.logError "Exceeded the maximum number of iterations, bailing out"],
      ?_, ?_⟩
    · simp [handler, hLT, hFind, hASG, hEC2, hHook, hArn, hClu, hIt,
        drain_pass, list_running_tasks, hlen, hbig]
    · simp only [List.filter_append, List.filter_cons]
      rw [if_neg (by simp [isStopEffect]), hfil]
      simp [isStopEffect]
  · refine ⟨(Effect.listTasks c a ::
      stop_daemon_tasks env c a (env.listTasksResult c a)) ++
      Effect.sleep PAUSE ::
      publish_to_sns { event.message with containerInstanceArn := some a, clusterId := some c, iteration := some (i + 1) } ("Draining instance " ++ pySplitLast a) event.topicArn,
      ?_, ?_⟩
    · simp [handler, hLT, hFind, hASG, hEC2, hHook, hArn, hClu, hIt,
        drain_pass, list_running_tasks, hlen, hbig]
    · simp only [List.filter_append, List.filter_cons, publish_to_sns]
      rw [if_neg (by simp [isStopEffect]), if_neg (by simp [isStopEffect]),
        if_neg (by simp [isStopEffect]), hfil]
      simp

/-- C8: on an invocation whose message already carries ContainerInstanceArn,
no identity-search call (list-clusters, list-container-instances,
describe-container-instances) is made, and every message republished by the
invocation carries exactly the ClusterId and ContainerInstanceArn taken
from the inbound message. -/
theorem cached_identity_no_search (env : Env) (event : Event)
    (lt asg ec2 hook c a : String) (i : Nat)
    (hLT : event.message.lifecycleTransition = some lt)
    (hFind : pyFind lt "autoscaling:EC2_INSTANCE_TERMINATING" > -1)
    (hASG : event.message.autoScalingGroupName = some asg)
    (hEC2 : event.message.ec2InstanceId = some ec2)
    (hHook : event.message.lifecycleHookName = some hook)
    (hArn : event.message.containerInstanceArn = some a)
    (hClu : event.message.clusterId = some c)
    (hIt : event.message.iteration = some i) :
    ∃ t, handler env event = Except.ok t ∧ countSearch t = 0 ∧
      ∀ m2 ∈ publishedMessages t,
        m2.clusterId = event.message.clusterId ∧
        m2.containerInstanceArn = event.message.containerInstanceArn := by
  obtain ⟨s1, s2, s3, s4, s5, s6⟩ :=
    stop_daemon_tasks_counts env c a (env.listTasksResult c a)
  have hrun : handler env event = drain_pass env event.message event.topicArn
      asg ec2 hook c a i [] := by
    simp [handler, hLT, hFind, hASG, hEC2, hHook, hArn, hClu, hIt]
  by_cases hlen : (env.listTasksResult c a).length > 0
  · by_cases hbig : i + 1 > MAXIMUM_ITERATIONS
    · refine ⟨(Effect.listTasks c a ::
        stop_daemon_tasks env c a (env.listTasksResult c a)) ++
        [Effect.logError "Exceeded the maximum number of iterations, bailing out"],
        ?_, ?_, ?_⟩
      · rw [hrun]; simp [drain_pass, list_running_tasks, hlen, hbig]
      · simp only [countSearch, List.countP_append, List.countP_cons] at s3 ⊢
        simp [s3, isSearchEffect]
      · intro m2 hm2
        simp only [publishedMessages, List.filterMap_append,
          List.filterMap_cons] at hm2
        simp only [publishedMessages] at s6
        simp [s6] at hm2
    · refine ⟨(Effect.listTasks c a ::
        stop_daemon_tasks env c a (env.listTasksResult c a)) ++
        Effect.sleep PAUSE ::
        publish_to_sns { event.message with containerInstanceArn := some a, clusterId := some c, iteration := some (i + 1) } ("Draining instance " ++ pySplitLast a) event.topicArn,
        ?_, ?_, ?_⟩
      · rw [hrun]; simp [drain_pass, list_running_tasks, hlen, hbig]
      · simp only [countSearch, List.countP_append, List.countP_cons,
          publish_to_sns] at s3 ⊢
        simp [s3, isSearchEffect]
      · intro m2 hm2
        simp only [publishedMessages, List.filterMap_append,
          List.filterMap_cons, publish_to_sns] at hm2
        simp only [publishedMessages] at s6
        simp [s6] at hm2
        subst hm2
        exact ⟨hClu.symm, hArn.symm⟩
  · cases hE : env.asgError with
    | none =>
      refine ⟨[Effect.listTasks c a,
        Effect.completeLifecycleAction asg hook ec2], ?_, ?_, ?_⟩
      · rw [hrun]
        simp [drain_pass, list_running_tasks, hlen, continue_lifecycle, hE]
      · simp [countSearch, List.countP_cons, isSearchEffect]
      · intro m2 hm2
        simp [publishedMessages] at hm2
    | some err =>
      refine ⟨[Effect.listTasks c a,
        Effect.completeLifecycleAction asg hook ec2, Effect.printed err],
        ?_, ?_, ?_⟩
      · rw [hrun]
        simp [drain_pass, list_running_tasks, hlen, continue_lifecycle, hE]
      · simp [countSearch, List.countP_cons, isSearchEffect]
      · intro m2 hm2
        simp [publishedMessages] at hm2

/-- C4: every message republished by an invocation carries Iteration equal
to the iteration of the triggering message plus exactly one, where an
inbound message without ContainerInstanceArn is treated as iteration 0;
in particular the published iteration is strictly greater, so across a
chain of republished messages Iteration increases by 1 per hop, never
decreases and never resets. -/
theorem republish_iteration_plus_one (env : Env) (event : Event)
    (t : List Effect) (m2 : Message)
    (hRun : handler env event = Except.ok t)
    (hMem : m2 ∈ publishedMessages t) :
    ∃ k, (∀ x, event.message.containerInstanceArn = some x →
            event.message.iteration = some k) ∧
         (event.message.containerInstanceArn = none → k = 0) ∧
         m2.iteration = some (k + 1) ∧ k < k + 1 := by
  rcases hLT : event.message.lifecycleTransition with _ | lt
  · simp [handler, hLT] at hRun
    subst hRun
    simp [publishedMessages] at hMem
  · by_cases hFind : pyFind lt "autoscaling:EC2_INSTANCE_TERMINATING" > -1
    case neg =>
      simp [handler, hLT, hFind] at hRun
      subst hRun
      simp [publishedMessages] at hMem
    case pos =>
      rcases hASG : event.message.autoScalingGroupName with _ | asg
      · simp [handler, hLT, hFind, hASG] at hRun
      · rcases hEC2 : event.message.ec2InstanceId with _ | ec2
        · simp [handler, hLT, hFind, hASG, hEC2] at hRun
        · rcases hHook : event.message.lifecycleHookName with _ | hook
          · simp [handler, hLT, hFind, hASG, hEC2, hHook] at hRun
          · rcases hArn : event.message.containerInstanceArn with _ | a
            · rcases hRes : (get_ecs_ids env ec2).2 with _ | ci
              · obtain ⟨g1, g2, g3, g4, g5⟩ := get_ecs_ids_counts env ec2
                simp [handler, hLT, hFind, hASG, hEC2, hHook, hArn, hRes] at hRun
                subst hRun
                rw [g5] at hMem
                simp at hMem
              · obtain ⟨c, a⟩ := ci
                obtain ⟨g1, g2, g3, g4, g5⟩ := get_ecs_ids_counts env ec2
                have hrun2 : drain_pass env event.message event.topicArn
                    asg ec2 hook c a 0 (get_ecs_ids env ec2).1 = Except.ok t := by
                  rw [← hRun]
                  simp [handler, hLT, hFind, hASG, hEC2, hHook, hArn, hRes]
                have hm := drain_pass_published env event.message
                  event.topicArn asg ec2 hook c a 0 _ g5 t hrun2 m2 hMem
                refine ⟨0, ?_, ?_, ?_, by omega⟩
                · intro x hx
                  simp [hArn] at hx
                · intro hx
                  rfl
                · simp [hm]
            · rcases hClu : event.message.clusterId with _ | c
              · simp [handler, hLT, hFind, hASG, hEC2, hHook, hArn, hClu] at hRun
              · rcases hIt : event.message.iteration with _ | i
                · simp [handler, hLT, hFind, hASG, hEC2, hHook, hArn,
                    hClu, hIt] at hRun
                · have hrun2 : drain_pass env event.message event.topicArn
                      asg ec2 hook c a i [] = Except.ok t := by
                    rw [← hRun]
                    simp [handler, hLT, hFind, hASG, hEC2, hHook, hArn, hClu, hIt]
                  have hm := drain_pass_published env event.message
                    event.topicArn asg ec2 hook c a i [] rfl t hrun2 m2 hMem
                  refine ⟨i, ?_, ?_, ?_, by omega⟩
                  · intro x hx
                    rfl
                  · intro hx
                    simp [hArn] at hx
                  · simp [hm]

theorem find_in_instances_found (c x : String) :
    ∀ (l : List ContainerInstance) (a : String),
      (find_in_instances c x l).2 = some a →
      ∃ inst ∈ l, inst.ec2InstanceId = x ∧ inst.containerInstanceArn = a ∧
        (inst.status ≠ "DRAINING" →
          Effect.updateContainerInstancesState c a ∈ (find_in_instances c x l).1) := by
  intro l
  induction l with
  | nil =>
    intro a h
    simp [find_in_instances] at h
  | cons i rest ih =>
    intro a h
    by_cases hm : (i.ec2InstanceId == x) = true
    · have ha : i.containerInstanceArn = a := by
        simpa [find_in_instances, hm] using h
      refine ⟨i, List.mem_cons_self i rest, beq_iff_eq.mp hm, ha, fun hst => ?_⟩
      have hbne : (i.status != "DRAINING") = true := bne_iff_ne.mpr hst
      simp [find_in_instances, hm, hbne, drain_instance, ha]
    · have heq : find_in_instances c x (i :: rest) = find_in_instances c x rest := by
        simp [find_in_instances, hm]
      rw [heq] at h ⊢
      obtain ⟨inst, hin, p1, p2, p3⟩ := ih a h
      exact ⟨inst, List.mem_cons_of_mem i hin, p1, p2, p3⟩

theorem find_in_clusters_found (env : Env) (x : String) :
    ∀ (cs : List String) (c a : String),
      (find_in_clusters env x cs).2 = some (c, a) →
      ∃ inst ∈ env.containerInstancesOf c,
        inst.ec2InstanceId = x ∧ inst.containerInstanceArn = a ∧
        (inst.status ≠ "DRAINING" →
          Effect.updateContainerInstancesState c a ∈ (find_in_clusters env x cs).1) := by
  intro cs
  induction cs with
  | nil =>
    intro c a h
    simp [find_in_clusters] at h
  | cons cl rest ih =>
    intro c a h
    by_cases he : ((env.containerInstancesOf cl).map
        (fun i => i.containerInstanceArn)).isEmpty = true
    · have h2 : (find_in_clusters env x rest).2 = some (c, a) := by
        simpa [find_in_clusters, he] using h
      obtain ⟨inst, hin, p1, p2, p3⟩ := ih c a h2
      refine ⟨inst, hin, p1, p2, fun hst => ?_⟩
      have hmem := p3 hst
      simp [find_in_clusters, he, hmem]
    · rcases hs : (find_in_instances cl x (env.containerInstancesOf cl)).2 with _ | arn
      · have h2 : (find_in_clusters env x rest).2 = some (c, a) := by
          simpa [find_in_clusters, he, hs] using h
        obtain ⟨inst, hin, p1, p2, p3⟩ := ih c a h2
        refine ⟨inst, hin, p1, p2, fun hst => ?_⟩
        have hmem := p3 hst
        simp [find_in_clusters, he, hs, hmem]
      · have hca : cl = c ∧ arn = a := by
          simpa [find_in_clusters, he, hs] using h
        obtain ⟨hc, ha⟩ := hca
        subst hc
        subst ha
        obtain ⟨inst, hin, p1, p2, p3⟩ :=
          find_in_instances_found cl x (env.containerInstancesOf cl) arn hs
        refine ⟨inst, hin, p1, p2, fun hst => ?_⟩
        have hmem := p3 hst
        simp [find_in_clusters, he, hs, hmem]

theorem get_ecs_ids_found (env : Env) (x c a : String)
    (h : (get_ecs_ids env x).2 = some (c, a)) :
    ∃ inst ∈ env.containerInstancesOf c,
      inst.ec2InstanceId = x ∧ inst.containerInstanceArn = a ∧
      (inst.status ≠ "DRAINING" →
        Effect.updateContainerInstancesState c a ∈ (get_ecs_ids env x).1) := by
  have h2 : (find_in_clusters env x env.clusterPages.flatten).2 = some (c, a) := by
    simpa [get_ecs_ids] using h
  obtain ⟨inst, hin, p1, p2, p3⟩ :=
    find_in_clusters_found env x env.clusterPages.flatten c a h2
  refine ⟨inst, hin, p1, p2, fun hst => ?_⟩
  have hmem := p3 hst
  simp [get_ecs_ids, hmem]

/-- C9 (amended): the mark-non-placeable step runs only during identity
resolution.  For every environment and every dispatched invocation:
(1) when the message carries no ContainerInstanceArn and the cluster-wide
search resolves `(c, a)`, the invocation succeeds and the container
instance the search found (a member of cluster `c` matching the EC2
instance id, with ARN `a`) is transitioned to draining during that
invocation whenever its status is not DRAINING; (2) every invocation whose
message already carries the resolved identity performs no
update_container_instances_state call at all, whatever the instance
states in the clusters are. -/
theorem drain_marked_only_on_resolution (env : Env) (event : Event)
    (lt asg ec2 hook : String)
    (hLT : event.message.lifecycleTransition = some lt)
    (hFind : pyFind lt "autoscaling:EC2_INSTANCE_TERMINATING" > -1)
    (hASG : event.message.autoScalingGroupName = some asg)
    (hEC2 : event.message.ec2InstanceId = some ec2)
    (hHook : event.message.lifecycleHookName = some hook) :
    (∀ c a, event.message.containerInstanceArn = none →
      (get_ecs_ids env ec2).2 = some (c, a) →
      ∃ t, handler env event = Except.ok t ∧
        ∃ inst ∈ env.containerInstancesOf c,
          inst.ec2InstanceId = ec2 ∧ inst.containerInstanceArn = a ∧
          (inst.status ≠ "DRAINING" →
            Effect.updateContainerInstancesState c a ∈ t)) ∧
    (∀ a c i, event.message.containerInstanceArn = some a →
      event.message.clusterId = some c →
      event.message.iteration = some i →
      ∃ t, handler env event = Except.ok t ∧ countUpdate t = 0) := by
  constructor
  · intro c a hArn hRes
    obtain ⟨t, ht, hmem, hpre⟩ := drain_pass_runs env event.message
      event.topicArn asg ec2 hook c a 0 (get_ecs_ids env ec2).1
    have hhandler : handler env event = drain_pass env event.message
        event.topicArn asg ec2 hook c a 0 (get_ecs_ids env ec2).1 := by
      simp [handler, hLT, hFind, hASG, hEC2, hHook, hArn, hRes]
    obtain ⟨inst, hin, p1, p2, p3⟩ := get_ecs_ids_found env ec2 c a hRes
    exact ⟨t, hhandler ▸ ht, inst, hin, p1, p2, fun hst => hpre _ (p3 hst)⟩
  · intro a c i hArn hClu hIt
    obtain ⟨s1, s2, s3, s4, s5, s6⟩ :=
      stop_daemon_tasks_counts env c a (env.listTasksResult c a)
    have hrun : handler env event = drain_pass env event.message event.topicArn
        asg ec2 hook c a i [] := by
      simp [handler, hLT, hFind, hASG, hEC2, hHook, hArn, hClu, hIt]
    by_cases hlen : (env.listTasksResult c a).length > 0
    · by_cases hbig : i + 1 > MAXIMUM_ITERATIONS
      · refine ⟨(Effect.listTasks c a ::
          stop_daemon_tasks env c a (env.listTasksResult c a)) ++
          [Effect.logError "Exceeded the maximum number of iterations, bailing out"],
          ?_, ?_⟩
        · rw [hrun]
          simp [drain_pass, list_running_tasks, hlen, hbig]
        · simp only [countUpdate, List.countP_append, List.countP_cons] at s5 ⊢
          simp [s5, isUpdateEffect]
      · refine ⟨(Effect.listTasks c a ::
          stop_daemon_tasks env c a (env.listTasksResult c a)) ++
          Effect.sleep PAUSE ::
          publish_to_sns { event.message with containerInstanceArn := some a, clusterId := some c, iteration := some (i + 1) } ("Draining instance " ++ pySplitLast a) event.topicArn,
          ?_, ?_⟩
        · rw [hrun]
          simp [drain_pass, list_running_tasks, hlen, hbig]
        · simp only [countUpdate, List.countP_append, List.countP_cons,
            publish_to_sns] at s5 ⊢
          simp [s5, isUpdateEffect]
    · cases hE : env.asgError with
      | none =>
        refine ⟨[Effect.listTasks c a,
          Effect.completeLifecycleAction asg hook ec2], ?_, ?_⟩
        · rw [hrun]
          simp [drain_pass, list_running_tasks, hlen, continue_lifecycle, hE]
        · simp [countUpdate, List.countP_cons, isUpdateEffect]
      | some err =>
        refine ⟨[Effect.listTasks c a,
          Effect.completeLifecycleAction asg hook ec2, Effect.printed err],
          ?_, ?_⟩
        · rw [hrun]
          simp [drain_pass, list_running_tasks, hlen, continue_lifecycle, hE]
        · simp [countUpdate, List.countP_cons, isUpdateEffect]

/-- C9 counterexample: the invocation triggered by a republished message
with cached identity (`eventCached`) reaches the task-evaluation step
(it lists the running tasks) while the cluster still reports the container
instance as ACTIVE, i.e. not draining, yet the invocation performs no
update_container_instances_state call: the claim that every invocation
reaching task evaluation transitions a non-draining instance to draining
is false on this input. -/
theorem cached_pass_no_drain_counterexample :
    (∃ t, handler envOneActive eventCached = Except.ok t ∧
      Effect.listTasks "cluA" "arn/ci1" ∈ t ∧ countUpdate t = 0) ∧
    (envOneActive.containerInstancesOf "cluA").map
      (fun i => i.status) = ["ACTIVE"] :=
  ⟨⟨tracePub, rfl, by decide, by decide⟩, rfl⟩

/-- Witness for `drain_marked_only_on_resolution` at concrete inputs: the
resolving invocation on `envOneActive` (whose instance is ACTIVE) and the
cached invocation on the same environment. -/
theorem drain_marked_only_on_resolution_witness :
    (∃ t, handler envOneActive eventNoId = Except.ok t ∧
      ∃ inst ∈ envOneActive.containerInstancesOf "cluA",
        inst.ec2InstanceId = "i-1" ∧ inst.containerInstanceArn = "arn/ci1" ∧
        (inst.status ≠ "DRAINING" →
          Effect.updateContainerInstancesState "cluA" "arn/ci1" ∈ t)) ∧
    (∃ t, handler envOneActive eventCached = Except.ok t ∧ countUpdate t = 0) :=
  ⟨(drain_marked_only_on_resolution envOneActive eventNoId
      "autoscaling:EC2_INSTANCE_TERMINATING" "asg1" "i-1" "hook1"
      rfl (by decide) rfl rfl rfl).1 "cluA" "arn/ci1" rfl rfl,
   (drain_marked_only_on_resolution envOneActive eventCached
      "autoscaling:EC2_INSTANCE_TERMINATING" "asg1" "i-1" "hook1"
      rfl (by decide) rfl rfl rfl).2 "arn/ci1" "cluA" 0 rfl rfl rfl⟩

/-- Witness for `empty_tasks_continue_once` at a concrete input. -/
theorem empty_tasks_continue_once_witness :
    ∃ t, handler envNoTasks eventCached = Except.ok t ∧
      countContinue t = 1 ∧
      Effect.completeLifecycleAction "asg1" "hook1" "i-1" ∈ t ∧
      countPublish t = 0 :=
  empty_tasks_continue_once envNoTasks eventCached
    "autoscaling:EC2_INSTANCE_TERMINATING" "asg1" "i-1" "hook1" "cluA" "arn/ci1"
    rfl (by decide) rfl rfl rfl (Or.inl ⟨rfl, rfl, 0, rfl⟩) rfl

/-- Witness for `stop_daemon_matching_only` at a concrete input. -/
theorem stop_daemon_matching_only_witness :
    ∃ t, handler envTwoTasks eventCached = Except.ok t ∧
      t.filter isStopEffect =
        ((envTwoTasks.describeTasksResult "cluA"
          (envTwoTasks.listTasksResult "cluA" "arn/ci1")).filter
          (fun u => u.startedBy == pySplitLast "arn/ci1")).map
          (fun u => Effect.stopTask "cluA" u.taskArn
            "Draining the container instance") :=
  stop_daemon_matching_only envTwoTasks eventCached
    "autoscaling:EC2_INSTANCE_TERMINATING" "asg1" "i-1" "hook1" "cluA" "arn/ci1"
    0 rfl (by decide) rfl rfl rfl rfl rfl rfl (by decide)

/-- Witness for `circuit_breaker_halts` at a concrete input. -/
theorem circuit_breaker_halts_witness :
    ∃ t, handler envTwoTasks eventBreaker = Except.ok t ∧
      t.getLast? = some (Effect.logError
        "Exceeded the maximum number of iterations, bailing out") ∧
      countPublish t = 0 ∧ countContinue t = 0 :=
  circuit_breaker_halts envTwoTasks eventBreaker
    "autoscaling:EC2_INSTANCE_TERMINATING" "asg1" "i-1" "hook1" "cluA" "arn/ci1"
    50 rfl (by decide) rfl rfl rfl rfl rfl rfl (by decide) (by decide)

/-- Witness for `republish_iteration_plus_one` at a concrete input. -/
theorem republish_iteration_plus_one_witness :
    ∃ k, (∀ x, eventCached.message.containerInstanceArn = some x →
            eventCached.message.iteration = some k) ∧
         (eventCached.message.containerInstanceArn = none → k = 0) ∧
         msgPub.iteration = some (k + 1) ∧ k < k + 1 :=
  republish_iteration_plus_one envTwoTasks eventCached tracePub msgPub
    rfl (by decide)

/-- Witness for `non_termination_event_ignored` at a concrete input. -/
theorem non_termination_event_ignored_witness :
    handler envNoTasks eventAlarm = Except.ok [] :=
  non_termination_event_ignored envNoTasks eventAlarm
    (Or.inr ⟨"ALARM: test", rfl, by decide⟩)

/-- Witness for `unknown_instance_silent_return` at a concrete input. -/
theorem unknown_instance_silent_return_witness :
    handler envNoTasks eventNoId = Except.ok (get_ecs_ids envNoTasks "i-1").1 ∧
    countListTasks (get_ecs_ids envNoTasks "i-1").1 = 0 ∧
    countStop (get_ecs_ids envNoTasks "i-1").1 = 0 ∧
    countPublish (get_ecs_ids envNoTasks "i-1").1 = 0 ∧
    countContinue (get_ecs_ids envNoTasks "i-1").1 = 0 :=
  unknown_instance_silent_return envNoTasks eventNoId
    "autoscaling:EC2_INSTANCE_TERMINATING" "asg1" "i-1" "hook1"
    rfl (by decide) rfl rfl rfl rfl rfl

/-- Witness for `cached_identity_no_search` at a concrete input. -/
theorem cached_identity_no_search_witness :
    ∃ t, handler envTwoTasks eventCached = Except.ok t ∧ countSearch t = 0 ∧
      ∀ m2 ∈ publishedMessages t,
        m2.clusterId = eventCached.message.clusterId ∧
        m2.containerInstanceArn = eventCached.message.containerInstanceArn :=
  cached_identity_no_search envTwoTasks eventCached
    "autoscaling:EC2_INSTANCE_TERMINATING" "asg1" "i-1" "hook1" "cluA" "arn/ci1"
    0 rfl (by decide) rfl rfl rfl rfl rfl rfl

/-- Witness for `substring_transition_dispatched` at a concrete input. -/
theorem substring_transition_dispatched_witness :
    ∃ t, handler envTwoTasks eventPrefixed = Except.ok t ∧
      Effect.listTasks "cluA" "arn/ci1" ∈ t :=
  substring_transition_dispatched envTwoTasks eventPrefixed
    "xx" "yy" "asg1" "i-1" "hook1" "cluA" "arn/ci1" 0
    rfl rfl rfl rfl rfl rfl rfl
